import Mathlib

/-!
Shallow embedding of `click_odoo_contrib/backupdbs3.py`: a backup-and-ship
pipeline that dumps a PostgreSQL database with `pg_dump`, writes a manifest,
optionally copies the filestore, compresses everything with `7z` into a zip
held in a temporary directory, uploads the zip to an S3 bucket, verifies the
upload with `head_object`, and records an accounting row.

External effects (subprocess exit codes, S3 call outcomes, the filesystem,
the clock) are modelled by an oracle structure `World`.  Each embedded
function returns the ordered trace of the externally visible operations it
performed (`Ev`) together with the data the claims inspect.
-/

namespace BackupDbS3

/-- Calendar timestamp as returned by `datetime.datetime.utcnow()`, truncated
to second precision, which is the only precision the code formats. -/
structure Datetime where
  year : Nat
  month : Nat
  day : Nat
  hour : Nat
  minute : Nat
  second : Nat
deriving DecidableEq

/-- Field ranges of a real timestamp produced by `utcnow()` (the year bound
holds for every date representable by `strftime` with a four-digit year). -/
def Datetime.Valid (t : Datetime) : Prop :=
  t.year < 10000 ∧ 1 ≤ t.month ∧ t.month ≤ 12 ∧ 1 ≤ t.day ∧ t.day ≤ 31 ∧
    t.hour < 24 ∧ t.minute < 60 ∧ t.second < 60

instance (t : Datetime) : Decidable t.Valid := by
  unfold Datetime.Valid
  infer_instance

/-- Two-digit zero-padded decimal rendering, as `strftime` does for
`%m %d %H %M %S`. -/
def twoDigits (n : Nat) : List Char :=
  [Nat.digitChar (n / 10 % 10), Nat.digitChar (n % 10)]

/-- Four-digit zero-padded decimal rendering, as `strftime` does for `%Y`. -/
def fourDigits (n : Nat) : List Char :=
  [Nat.digitChar (n / 1000 % 10), Nat.digitChar (n / 100 % 10),
    Nat.digitChar (n / 10 % 10), Nat.digitChar (n % 10)]

/-- `t.strftime("%Y-%m-%d_%H-%M-%S")` (backupdbs3.py lines 137 and 229). -/
def strftime_ts (t : Datetime) : String :=
  String.mk (fourDigits t.year ++ '-' :: (twoDigits t.month ++ '-' ::
    (twoDigits t.day ++ '_' :: (twoDigits t.hour ++ '-' ::
      (twoDigits t.minute ++ '-' :: twoDigits t.second)))))

/-- Oracle for everything outside the program: database existence, the
destination path, subprocess exit codes and captured output, the filestore
directory, S3 call outcomes, and the two `utcnow()` calls (`main` line 229
and `_backup_s3` line 137 each call `utcnow()` separately). -/
structure World where
  dbExists : Bool
  destExists : Bool
  pguser : String
  pghost : String
  pgDumpRc : Nat
  pgDumpStdout : String
  pgDumpStderr : String
  filestoreExists : Bool
  sevenZipRc : Nat
  /-- whether `7z` actually materialised the archive file in `zip_dir` -/
  zipFileCreated : Bool
  /-- `client.upload_file` returns normally (false = it raises) -/
  uploadOk : Bool
  /-- `client.head_object` result: `some n` = ContentLength `n` bytes,
  `none` = the call raises (object not confirmed) -/
  headLen : Option Nat
  nowMain : Datetime
  nowS3 : Datetime
deriving DecidableEq

/-- Externally visible operations, in program order. -/
inductive Ev where
  | cursorExec (sql : String)
  | cursorCommit
  | pgDumpRun (cmd : List String)
  | sevenZipRun (cmd : List String)
  | s3Upload (key : String)
  | s3Head (key : String)
deriving DecidableEq

def isCursorEv : Ev → Bool
  | Ev.cursorExec _ => true
  | Ev.cursorCommit => true
  | _ => false

def isPgDumpEv : Ev → Bool
  | Ev.pgDumpRun _ => true
  | _ => false

def isSevenZipEv : Ev → Bool
  | Ev.sevenZipRun _ => true
  | _ => false

def isUploadEv : Ev → Bool
  | Ev.s3Upload _ => true
  | _ => false

/-- The SELECT issued by `dump_db_manifest` (line 32). -/
def modules_query : String :=
  "SELECT name, latest_version FROM ir_module_module WHERE state = \x27installed\x27"

/-- The parameterized INSERT issued by `_backup_s3` (lines 149-153). -/
def insert_query : String :=
  "INSERT INTO s3_backup_created (name,size, create_date, write_date)" ++
    "VALUES (%s, %s, now() AT TIME ZONE \x27UTC\x27, now() AT TIME ZONE \x27UTC\x27)"

/-- The open database cursor: its database name and the data the manifest
query reads. -/
structure Cursor where
  dbname : String
  serverVersion : Nat
  installedModules : List (String × String)
deriving DecidableEq

/-- The manifest document written as `manifest.json` (lines 34-42).  The
`version`, `version_info` and `major_version` fields come from the ambient
`odoo.release` constants of the host application and no claim inspects them,
so they are not modelled.  Python computes `divmod(server_version / 100, 100)`
with float division and renders it with truncating `%d`; for non-negative
integers the result coincides with Nat division and modulus. -/
structure Manifest where
  odoo_dump : String
  db_name : String
  pg_version : String
  modules : List (String × String)
deriving DecidableEq

/-- `dump_db_manifest(cr)` (lines 30-43): returns the manifest and the trace
of cursor operations it performed. -/
def dump_db_manifest (cr : Cursor) : Manifest × List Ev :=
  ({ odoo_dump := "1"
     db_name := cr.dbname
     pg_version :=
       toString (cr.serverVersion / 100 / 100) ++ "." ++
         toString (cr.serverVersion / 100 % 100)
     modules := cr.installedModules },
   [Ev.cursorExec modules_query])

/-- The `pg_dump` argument vector (lines 49 and 53): the `--file=` argument
is inserted at Python index `-1`, i.e. just before the database name. -/
def pg_dump_cmd (w : World) (dbname dumpFile : String) : List String :=
  ["pg_dump", "--no-owner", "-U", w.pguser, "-h", w.pghost, "-p", "5433",
    "--file=" ++ dumpFile, dbname]

/-- The `7z` argument vector (lines 75-76). -/
def sevenzip_cmd (zipPath srcGlob : String) : List String :=
  ["7z", "a", "-bt", "-mx=3", "-mmt=on", "-tzip", zipPath, srcGlob]

/-- The error message built at lines 65-67 when `pg_dump` exits non-zero.
Python renders the argument tuple with quoting; it is modelled as the
space-joined argument list, which no claim inspects beyond the captured
stderr text it carries. -/
def pg_dump_error_message (w : World) (cmd : List String) : String :=
  "Postgres subprocess " ++ String.intercalate (" ") cmd ++ " error " ++
    toString w.pgDumpRc ++ "\nStdout:\n" ++ w.pgDumpStdout ++ "\nStderr:\n" ++
    w.pgDumpStderr ++ "\n"

/-- `"%s_%s.%s" % (dbname, ts, "zip")` (lines 138 and 230). -/
def backup_filename (dbname : String) (t : Datetime) : String :=
  dbname ++ "_" ++ strftime_ts t ++ "." ++ "zip"

/-- The fixed backup-channel prefix `pre` (line 139). -/
def s3_channel_pre : String := "bkdaily/"

/-- The destination object key `pre + filename` (lines 137-141). -/
def s3_object_key (dbname : String) (t : Datetime) : String :=
  s3_channel_pre ++ backup_filename dbname t

/-- One row of the `s3_backup_created` accounting table.  The code inserts
the size converted to gigabytes by float division; the byte count returned
by `head_object` is recorded here, the unit conversion being irrelevant to
every claim. -/
structure UploadRow where
  name : String
  sizeBytes : Nat
deriving DecidableEq

/-- Exceptions that can propagate out of the pipeline body. -/
inductive PipeError where
  /-- the `raise Exception(...)` at line 68 for a non-zero `pg_dump` exit -/
  | dumpFailed (msg : String)
  /-- `client.upload_file` raised -/
  | uploadFailed
  /-- `client.head_object` raised: the upload was never confirmed -/
  | uploadUnconfirmed
deriving DecidableEq

/-- Result of `_backup_s3` (lines 119-160). -/
structure S3Outcome where
  events : List Ev
  insertedRow : Option UploadRow
  /-- whether the local archive at `dest` still exists when the function
  finishes (normally or by raising) -/
  localArtifactExists : Bool
  err : Option PipeError
deriving DecidableEq

/-- `_backup_s3(cr, dbname, dest)` (lines 119-160).  `destFileExists` is
whether the local file at `dest` exists on entry.  The function computes its
own timestamped filename, uploads under `"bkdaily/" + filename`, issues
`head_object` on the same key, and only then inserts and commits the
accounting row (with `filename`, without the prefix, as the name) and removes
the local file.  If `upload_file` or `head_object` raises, execution stops
there: no row is inserted and the cleanup at lines 156-160 never runs. -/
def _backup_s3 (w : World) (dbname : String) (destFileExists : Bool) :
    S3Outcome :=
  let filename := backup_filename dbname w.nowS3
  let key := s3_channel_pre ++ filename
  if w.uploadOk = false then
    { events := [Ev.s3Upload key]
      insertedRow := none
      localArtifactExists := destFileExists
      err := some PipeError.uploadFailed }
  else
    match w.headLen with
    | none =>
      { events := [Ev.s3Upload key, Ev.s3Head key]
        insertedRow := none
        localArtifactExists := destFileExists
        err := some PipeError.uploadUnconfirmed }
    | some len =>
      { events := [Ev.s3Upload key, Ev.s3Head key,
          Ev.cursorExec insert_query, Ev.cursorCommit]
        insertedRow := some { name := filename, sizeBytes := len }
        localArtifactExists := false
        err := none }

/-- Python `tempfile.TemporaryDirectory` used as a context manager removes
the directory and everything inside it when the `with` block exits, on normal
return and when an exception propagates alike. -/
def temporary_directory_exit (_contentsExist : Bool) : Bool := false

/-- Result of `_odoo_basic_backup` (lines 46-89). -/
structure BasicOutcome where
  events : List Ev
  /-- the files assembled in `dump_dir` and handed to `7z` via the glob -/
  dumpDirMembers : List String
  insertedRow : Option UploadRow
  /-- whether the assembled zip still exists after the function finishes:
  it lives inside the `zip_dir` temporary directory, so it never does -/
  zipExistsAfter : Bool
  err : Option PipeError
deriving DecidableEq

/-- `_odoo_basic_backup(cr, dbname, include_filestore, zip_filename)`
(lines 46-89).  The manifest is written to `dump_dir` first (lines 56-58),
then `pg_dump` writes `dump.sql` (lines 60-63); a non-zero exit raises
(lines 64-68).  The filestore is copied when requested and present
(lines 70-73).  `7z` zips `dump_dir/*` into `zip_dir` (lines 75-83); its
return code is only compared against 0 to print a success message (lines
86-87) — a non-zero code raises nothing and execution continues to
`_backup_s3` (line 89).  Both temporary directories are removed when their
`with` blocks exit, on every path. -/
def _odoo_basic_backup (w : World) (cr : Cursor) (dbname : String)
    (include_filestore : Bool) (zip_filename : String) : BasicOutcome :=
  let cmd := pg_dump_cmd w dbname "dump.sql"
  let manifestEvents := (dump_db_manifest cr).2
  if w.pgDumpRc ≠ 0 then
    { events := manifestEvents ++ [Ev.pgDumpRun cmd]
      dumpDirMembers := ["manifest.json"]
      insertedRow := none
      zipExistsAfter := temporary_directory_exit w.zipFileCreated
      err := some (PipeError.dumpFailed (pg_dump_error_message w cmd)) }
  else
    let members := ["manifest.json", "dump.sql"] ++
      (if include_filestore = true ∧ w.filestoreExists = true
        then ["filestore"] else [])
    let s3 := _backup_s3 w dbname w.zipFileCreated
    { events := manifestEvents ++
        [Ev.pgDumpRun cmd, Ev.sevenZipRun (sevenzip_cmd zip_filename "*")] ++
        s3.events
      dumpDirMembers := members
      insertedRow := s3.insertedRow
      zipExistsAfter := temporary_directory_exit s3.localArtifactExists
      err := s3.err }

/-- The four values of the `--format` option (line 178). -/
inductive BFormat where
  | s3zip
  | zip
  | dump
  | folder
deriving DecidableEq

/-- The parsed command-line invocation. -/
structure Args where
  dbname : String
  dest : String
  force : Bool
  if_exists : Bool
  format : BFormat
  filestore : Bool
deriving DecidableEq

/-- The `click.ClickException`s raised by validation in `main`. -/
inductive MainError where
  | sourceNotFound (msg : String)
  | destinationExists (msg : String)
deriving DecidableEq

/-- Observable outcome of one `main` invocation. -/
structure RunOutcome where
  events : List Ev
  dumpDirMembers : List String
  insertedRow : Option UploadRow
  /-- whether the assembled archive still exists on local disk afterwards -/
  archiveExistsAfter : Bool
  /-- whether the path given as `dest` exists afterwards -/
  destExistsAfter : Bool
  /-- the sidecar error-report file written, if any -/
  sidecar : Option String
  dbClosed : Bool
  /-- exception escaping `main` (only validation `ClickException`s can) -/
  raised : Option MainError
  /-- the pipeline exception caught and swallowed by `main`, if any -/
  err : Option PipeError
deriving DecidableEq

/-- `click` maps an uncaught `ClickException` to exit code 1; a normal
return from `main` exits 0. -/
def RunOutcome.exitCode (r : RunOutcome) : Nat :=
  if r.raised.isSome then 1 else 0

/-- The sidecar report path built at line 236: dest with every occurrence of
.zip replaced by _log, then .txt appended.  Python str.replace replaces every
occurrence of the pattern, which `String.replace` matches. -/
def sidecar_path (dest : String) : String :=
  (dest.replace ".zip" "_log") ++ ".txt"

/-- The body of `main` after validation (lines 227-241): force the filestore
off for format `dump`, compute the zip filename from a fresh `utcnow()`, run
`_odoo_basic_backup` on one cursor; any exception is caught, the traceback is
written to the sidecar report file, and the connection is closed in the
`finally` — nothing is re-raised. -/
def main_body (w : World) (cr : Cursor) (a : Args) : RunOutcome :=
  let fs := if a.format = BFormat.dump then false else a.filestore
  let zip_filename := backup_filename a.dbname w.nowMain
  let b := _odoo_basic_backup w cr a.dbname fs zip_filename
  { events := b.events
    dumpDirMembers := b.dumpDirMembers
    insertedRow := b.insertedRow
    archiveExistsAfter := b.zipExistsAfter
    destExistsAfter := false
    sidecar := if b.err.isSome then some (sidecar_path a.dest) else none
    dbClosed := true
    raised := none
    err := b.err }

/-- `main` (lines 191-241).  Validation order: the database-existence check
(lines 209-215) runs first — when the database is missing, `--if-exists`
turns the run into a clean early return, otherwise a `ClickException` is
raised; only then is the destination checked (lines 216-226): if it exists
and `--force` is not set a `ClickException` is raised, with `--force` it is
removed.  Both `ClickException`s are raised before the `try` block, so they
escape `main` and the connection is never opened for them. -/
def main (w : World) (cr : Cursor) (a : Args) : RunOutcome :=
  if w.dbExists = false then
    if a.if_exists = true then
      { events := [], dumpDirMembers := [], insertedRow := none
        archiveExistsAfter := false, destExistsAfter := w.destExists
        sidecar := none, dbClosed := false, raised := none, err := none }
    else
      { events := [], dumpDirMembers := [], insertedRow := none
        archiveExistsAfter := false, destExistsAfter := w.destExists
        sidecar := none, dbClosed := false
        raised := some (MainError.sourceNotFound
          ("Database does not exist: " ++ a.dbname))
        err := none }
  else
    if w.destExists = true then
      if a.force = false then
        { events := [], dumpDirMembers := [], insertedRow := none
          archiveExistsAfter := false, destExistsAfter := true
          sidecar := none, dbClosed := false
          raised := some (MainError.destinationExists
            ("Destination already exist: " ++ a.dest))
          err := none }
      else
        main_body w cr a
    else
      main_body w cr a

/-! ### Concrete scenarios used by witnesses and counterexamples -/

/-- 2024-01-02 03:04:05 UTC. -/
def t0 : Datetime := ⟨2024, 1, 2, 3, 4, 5⟩

/-- 2024-01-02 03:04:06 UTC (one second later). -/
def t1 : Datetime := ⟨2024, 1, 2, 3, 4, 6⟩

def cr0 : Cursor :=
  { dbname := "shop", serverVersion := 140005
    installedModules := [("base", "17.0")] }

/-- A world where every external step succeeds. -/
def wOK : World :=
  { dbExists := true, destExists := false, pguser := "odoo", pghost := "db"
    pgDumpRc := 0, pgDumpStdout := "", pgDumpStderr := ""
    filestoreExists := true, sevenZipRc := 0, zipFileCreated := true
    uploadOk := true, headLen := some 1024, nowMain := t0, nowS3 := t0 }

/-- Like `wOK` but the post-upload `head_object` check raises. -/
def wHeadFail : World := { wOK with headLen := none }

/-- Like `wOK` but `pg_dump` exits with code 1 and captured stderr. -/
def wDumpFail : World :=
  { wOK with pgDumpRc := 1, pgDumpStderr := "pg_dump: connection refused" }

/-- Like `wOK` but `7z` exits with code 2. -/
def wBad7z : World := { wOK with sevenZipRc := 2 }

/-- Like `wOK` but the source database does not exist and the destination
path does exist. -/
def wNoDb : World := { wOK with dbExists := false, destExists := true }

def argsDefault : Args :=
  { dbname := "shop", dest := "backup.zip", force := false
    if_exists := false, format := BFormat.s3zip, filestore := true }

/-! ### Helper lemmas -/

/-- When the database exists and the destination check passes (no collision,
or `--force` set), `main` runs its pipeline body. -/
lemma main_eq_body (w : World) (cr : Cursor) (a : Args)
    (hdb : w.dbExists = true) (hv : w.destExists = false ∨ a.force = true) :
    main w cr a = main_body w cr a := by
  unfold main
  rw [hdb]
  rcases hv with h | h
  · simp [h]
  · by_cases hd : w.destExists = true <;> simp [hd, h]

/-! ### C4 -/

/-- C4 fails as stated: with the destination already present and force unset,
but the source database missing and `--if-exists` given, the run returns
cleanly — no `DestinationExists` is ever raised (the database check runs
first).  No subprocess runs and the destination is untouched, but the
promised abort does not happen. -/
theorem C4_counterexample :
    wNoDb.destExists = true ∧ argsDefault.force = false ∧
      (main wNoDb cr0 { argsDefault with if_exists := true }).raised = none ∧
      (main wNoDb cr0 { argsDefault with if_exists := true }).events = [] := by
  decide

/-- C4 (amended): when the source database exists, a pre-existing destination
with force unset aborts with `DestinationExists` before any subprocess is
invoked (the event trace is empty), the destination is left untouched, and no
accounting row is written. -/
theorem C4_dest_exists_fail_fast (w : World) (cr : Cursor) (a : Args)
    (hdb : w.dbExists = true) (hdest : w.destExists = true)
    (hforce : a.force = false) :
    (main w cr a).raised = some (MainError.destinationExists
        ("Destination already exist: " ++ a.dest)) ∧
      (main w cr a).events = [] ∧
      (main w cr a).destExistsAfter = true ∧
      (main w cr a).insertedRow = none ∧
      (main w cr a).exitCode = 1 := by
  unfold main RunOutcome.exitCode
  simp [hdb, hdest, hforce]

theorem C4_dest_exists_fail_fast_witness :
    (main { wOK with destExists := true } cr0 argsDefault).raised =
        some (MainError.destinationExists
          ("Destination already exist: " ++ argsDefault.dest)) ∧
      (main { wOK with destExists := true } cr0 argsDefault).events = [] ∧
      (main { wOK with destExists := true } cr0 argsDefault).destExistsAfter
        = true ∧
      (main { wOK with destExists := true } cr0 argsDefault).insertedRow
        = none ∧
      (main { wOK with destExists := true } cr0 argsDefault).exitCode = 1 :=
  C4_dest_exists_fail_fast { wOK with destExists := true } cr0 argsDefault
    (by decide) (by decide) (by decide)

/-! ### C6 -/

/-- C6: the code is wrong.  With `7z` exiting 2 and every other stage
succeeding, the run still invokes both the compression and the upload
subprocesses, raises no error, and commits an accounting row: the non-zero
compression exit code is only compared against 0 to print a success message
(lines 86-87) and is otherwise ignored. -/
theorem C6_compression_failure_ignored :
    wBad7z.sevenZipRc = 2 ∧
      (main wBad7z cr0 argsDefault).events.any isSevenZipEv = true ∧
      (main wBad7z cr0 argsDefault).events.any isUploadEv = true ∧
      (main wBad7z cr0 argsDefault).err = none ∧
      (main wBad7z cr0 argsDefault).insertedRow.isSome = true := by
  decide

/-! ### C3 -/

/-- C3 fails as stated: when `head_object` raises (`UploadUnconfirmed`),
the assembled archive does NOT survive the run — it lives inside the
`zip_dir` `TemporaryDirectory`, which is removed when the `with` block in
`_odoo_basic_backup` exits, exception or not. -/
theorem C3_counterexample :
    (main wHeadFail cr0 argsDefault).err =
        some PipeError.uploadUnconfirmed ∧
      (main wHeadFail cr0 argsDefault).archiveExistsAfter = false := by
  decide

/-- C3 (amended): on `UploadUnconfirmed` the Remote Shipper itself performs
no deletion — `_backup_s3` skips its cleanup step, leaving the archive file
in place when it raises — but the archive was assembled inside a
`tempfile.TemporaryDirectory`, whose scope exit removes it even when an
exception propagates, so after the run completes the local artifact no
longer exists. -/
theorem C3_artifact_kept_by_shipper_lost_to_tempdir (w : World) (cr : Cursor)
    (a : Args) (hdb : w.dbExists = true)
    (hv : w.destExists = false ∨ a.force = true) (hpg : w.pgDumpRc = 0)
    (hup : w.uploadOk = true) (hhead : w.headLen = none)
    (hzip : w.zipFileCreated = true) :
    (_backup_s3 w a.dbname w.zipFileCreated).localArtifactExists = true ∧
      (_backup_s3 w a.dbname w.zipFileCreated).err =
        some PipeError.uploadUnconfirmed ∧
      (main w cr a).err = some PipeError.uploadUnconfirmed ∧
      (main w cr a).archiveExistsAfter = false := by
  rw [main_eq_body w cr a hdb hv]
  unfold main_body _odoo_basic_backup _backup_s3 temporary_directory_exit
  simp [hpg, hup, hhead, hzip]

theorem C3_artifact_kept_by_shipper_lost_to_tempdir_witness :
    (_backup_s3 wHeadFail argsDefault.dbname
          wHeadFail.zipFileCreated).localArtifactExists = true ∧
      (_backup_s3 wHeadFail argsDefault.dbname
          wHeadFail.zipFileCreated).err =
        some PipeError.uploadUnconfirmed ∧
      (main wHeadFail cr0 argsDefault).err =
        some PipeError.uploadUnconfirmed ∧
      (main wHeadFail cr0 argsDefault).archiveExistsAfter = false :=
  C3_artifact_kept_by_shipper_lost_to_tempdir wHeadFail cr0 argsDefault
    (by decide) (Or.inl (by decide)) (by decide) (by decide) (by decide)
    (by decide)

/-- Every branch of `_backup_s3` begins by invoking the upload. -/
lemma upload_in_s3_events (w : World) (db : String) (z : Bool) :
    (_backup_s3 w db z).events.any isUploadEv = true := by
  unfold _backup_s3
  by_cases h : w.uploadOk = false
  · simp [h, isUploadEv]
  · rcases hh : w.headLen with _ | n <;> simp [h, hh, isUploadEv]

/-! ### C2 -/

/-- C2: in every run that reaches the shipping stage (validation passed and
`pg_dump` exited 0), an accounting row is inserted exactly when the upload
call returned and the subsequent `head_object` check on the same key
succeeded (its `ContentLength` is a byte count, hence non-negative); and
whenever a row is inserted, the commit was issued.  If the check fails, no
row is written. -/
theorem C2_row_iff_head_confirmed (w : World) (cr : Cursor) (a : Args)
    (hdb : w.dbExists = true) (hv : w.destExists = false ∨ a.force = true)
    (hpg : w.pgDumpRc = 0) :
    ((main w cr a).insertedRow.isSome = true ↔
        (w.uploadOk = true ∧ w.headLen.isSome = true)) ∧
      ((main w cr a).insertedRow.isSome = true →
        Ev.cursorCommit ∈ (main w cr a).events) := by
  rw [main_eq_body w cr a hdb hv]
  unfold main_body _odoo_basic_backup _backup_s3
  by_cases hup : w.uploadOk = false
  · simp [hpg, hup]
  · rcases hh : w.headLen with _ | n <;> simp [hpg, hup, hh]

theorem C2_row_iff_head_confirmed_witness :
    ((main wOK cr0 argsDefault).insertedRow.isSome = true ↔
        (wOK.uploadOk = true ∧ wOK.headLen.isSome = true)) ∧
      ((main wOK cr0 argsDefault).insertedRow.isSome = true →
        Ev.cursorCommit ∈ (main wOK cr0 argsDefault).events) :=
  C2_row_iff_head_confirmed wOK cr0 argsDefault (by decide)
    (Or.inl (by decide)) (by decide)

/-! ### C5 -/

/-- C5: a non-zero `pg_dump` exit code makes `_odoo_basic_backup` raise the
fatal dump-failure error whose message carries the captured stderr text; the
compression and upload stages never run and no accounting row is written —
partial output is never treated as success. -/
theorem C5_pg_dump_nonzero_fatal (w : World) (cr : Cursor)
    (dbname zip_filename : String) (include_filestore : Bool)
    (h : w.pgDumpRc ≠ 0) :
    (_odoo_basic_backup w cr dbname include_filestore zip_filename).err =
        some (PipeError.dumpFailed
          (pg_dump_error_message w (pg_dump_cmd w dbname "dump.sql"))) ∧
      (∃ s1 s2, pg_dump_error_message w (pg_dump_cmd w dbname "dump.sql") =
        s1 ++ w.pgDumpStderr ++ s2) ∧
      (_odoo_basic_backup w cr dbname include_filestore
          zip_filename).events.any isSevenZipEv = false ∧
      (_odoo_basic_backup w cr dbname include_filestore
          zip_filename).events.any isUploadEv = false ∧
      (_odoo_basic_backup w cr dbname include_filestore
          zip_filename).insertedRow = none := by
  unfold _odoo_basic_backup
  refine ⟨by simp [h], ⟨?_, ?_, ?_⟩, by simp [h, dump_db_manifest,
    isSevenZipEv], by simp [h, dump_db_manifest, isUploadEv], by simp [h]⟩
  · exact "Postgres subprocess " ++
      String.intercalate (" ") (pg_dump_cmd w dbname "dump.sql") ++
      " error " ++ toString w.pgDumpRc ++ "\nStdout:\n" ++ w.pgDumpStdout ++
      "\nStderr:\n"
  · exact "\n"
  · unfold pg_dump_error_message
    simp [String.append_assoc]

theorem C5_pg_dump_nonzero_fatal_witness :
    (_odoo_basic_backup wDumpFail cr0 "shop" true "z.zip").err =
        some (PipeError.dumpFailed
          (pg_dump_error_message wDumpFail
            (pg_dump_cmd wDumpFail "shop" "dump.sql"))) ∧
      (∃ s1 s2, pg_dump_error_message wDumpFail
          (pg_dump_cmd wDumpFail "shop" "dump.sql") =
        s1 ++ wDumpFail.pgDumpStderr ++ s2) ∧
      (_odoo_basic_backup wDumpFail cr0 "shop" true "z.zip").events.any
        isSevenZipEv = false ∧
      (_odoo_basic_backup wDumpFail cr0 "shop" true "z.zip").events.any
        isUploadEv = false ∧
      (_odoo_basic_backup wDumpFail cr0 "shop" true "z.zip").insertedRow
        = none :=
  C5_pg_dump_nonzero_fatal wDumpFail cr0 "shop" "z.zip" true (by decide)

/-! ### C9 -/

/-- C9 fails as stated: in a fully successful run the event trace, from the
upload onward, still contains database-session operations — the accounting
INSERT and the commit are issued on the very cursor opened in `main`, after
compression and upload.  The session is not released once manifest and dump
reads complete. -/
theorem C9_counterexample :
    (main wOK cr0 argsDefault).events.any isUploadEv = true ∧
      ((main wOK cr0 argsDefault).events.dropWhile
        (fun e => !isUploadEv e)).any isCursorEv = true := by
  decide

/-- C9 (amended): the single session acquired in `main` is held across
compression and upload and is used again after the upload by the accounting
INSERT and commit; it is released only in the finally block of `main`, after the
whole pipeline has finished. -/
theorem C9_session_spans_pipeline (w : World) (cr : Cursor) (a : Args)
    (hdb : w.dbExists = true) (hv : w.destExists = false ∨ a.force = true)
    (hpg : w.pgDumpRc = 0) (hup : w.uploadOk = true) (n : Nat)
    (hh : w.headLen = some n) :
    ((main w cr a).events.dropWhile (fun e => !isUploadEv e)).any isCursorEv
        = true ∧
      (main w cr a).dbClosed = true := by
  rw [main_eq_body w cr a hdb hv]
  unfold main_body _odoo_basic_backup _backup_s3
  simp [hpg, hup, hh, dump_db_manifest, isUploadEv, isCursorEv]

theorem C9_session_spans_pipeline_witness :
    ((main wOK cr0 argsDefault).events.dropWhile
        (fun e => !isUploadEv e)).any isCursorEv = true ∧
      (main wOK cr0 argsDefault).dbClosed = true :=
  C9_session_spans_pipeline wOK cr0 argsDefault (by decide)
    (Or.inl (by decide)) (by decide) (by decide) 1024 (by decide)

/-! ### C10 -/

/-- C10: once validation has passed, any exception raised by the pipeline
(dump, upload confirmation, ...) is caught by `main`: nothing escapes, the
process exit code is 0, the traceback is written to the sidecar report file
at `dest` with every `.zip` occurrence replaced by `_log` and `.txt`
appended, and the database connection is closed in the `finally`. -/
theorem C10_failures_swallowed (w : World) (cr : Cursor) (a : Args)
    (hdb : w.dbExists = true) (hv : w.destExists = false ∨ a.force = true)
    (herr : (main w cr a).err.isSome = true) :
    (main w cr a).raised = none ∧
      (main w cr a).exitCode = 0 ∧
      (main w cr a).sidecar = some ((a.dest.replace ".zip" "_log") ++ ".txt") ∧
      (main w cr a).dbClosed = true := by
  rw [main_eq_body w cr a hdb hv] at herr ⊢
  simp only [main_body] at herr ⊢
  unfold RunOutcome.exitCode
  cases hb : (_odoo_basic_backup w cr a.dbname
      (if a.format = BFormat.dump then false else a.filestore)
      (backup_filename a.dbname w.nowMain)).err with
  | none => rw [hb] at herr; simp at herr
  | some e => simp [sidecar_path]

theorem C10_failures_swallowed_witness :
    (main wHeadFail cr0 argsDefault).raised = none ∧
      (main wHeadFail cr0 argsDefault).exitCode = 0 ∧
      (main wHeadFail cr0 argsDefault).sidecar =
        some ((argsDefault.dest.replace ".zip" "_log") ++ ".txt") ∧
      (main wHeadFail cr0 argsDefault).dbClosed = true :=
  C10_failures_swallowed wHeadFail cr0 argsDefault (by decide)
    (Or.inl (by decide)) (by decide)

/-! ### C1 -/

/-- C1 fails as stated: with format `dump` (raw-dump) and every stage
succeeding, the assembled artifact still contains `manifest.json`, is still
compressed by `7z` into a zip and is still uploaded — it is not a single
binary dump file without a manifest.  Only the filestore is forced off. -/
theorem C1_counterexample :
    ({ argsDefault with format := BFormat.dump } : Args).format
        = BFormat.dump ∧
      ({ argsDefault with format := BFormat.dump } : Args).filestore = true ∧
      "manifest.json" ∈
        (main wOK cr0 { argsDefault with
          format := BFormat.dump }).dumpDirMembers ∧
      "filestore" ∉
        (main wOK cr0 { argsDefault with
          format := BFormat.dump }).dumpDirMembers ∧
      (main wOK cr0 { argsDefault with
          format := BFormat.dump }).events.any isSevenZipEv = true ∧
      (main wOK cr0 { argsDefault with
          format := BFormat.dump }).events.any isUploadEv = true := by
  decide

/-- C1 (amended): all four format selectors run the identical pipeline and
produce the same artifact: a `7z`-compressed zip containing `manifest.json`
and a textual `dump.sql`, with `filestore` included exactly when the
filestore flag is set, the format is not raw-dump (which only forces the
flag off), and the filestore directory exists; the zip is uploaded for every
format.  Raw-dump does not yield a single manifest-free dump file. -/
theorem C1_all_formats_same_zip (w : World) (cr : Cursor) (a : Args)
    (hdb : w.dbExists = true) (hv : w.destExists = false ∨ a.force = true)
    (hpg : w.pgDumpRc = 0) :
    "manifest.json" ∈ (main w cr a).dumpDirMembers ∧
      "dump.sql" ∈ (main w cr a).dumpDirMembers ∧
      ("filestore" ∈ (main w cr a).dumpDirMembers ↔
        (a.format ≠ BFormat.dump ∧ a.filestore = true ∧
          w.filestoreExists = true)) ∧
      (main w cr a).events.any isSevenZipEv = true ∧
      (main w cr a).events.any isUploadEv = true := by
  rw [main_eq_body w cr a hdb hv]
  unfold main_body _odoo_basic_backup
  refine ⟨by simp [hpg], by simp [hpg], ?_, by simp [hpg, dump_db_manifest,
      isSevenZipEv], ?_⟩
  · by_cases hfmt : a.format = BFormat.dump <;>
      by_cases hfs : a.filestore = true <;>
      by_cases hstore : w.filestoreExists = true <;>
      simp [hpg, hfmt, hfs, hstore]
  · simp only [hpg]
    simp [List.any_append, upload_in_s3_events, dump_db_manifest,
      isUploadEv]

theorem C1_all_formats_same_zip_witness :
    "manifest.json" ∈ (main wOK cr0 argsDefault).dumpDirMembers ∧
      "dump.sql" ∈ (main wOK cr0 argsDefault).dumpDirMembers ∧
      ("filestore" ∈ (main wOK cr0 argsDefault).dumpDirMembers ↔
        (argsDefault.format ≠ BFormat.dump ∧ argsDefault.filestore = true ∧
          wOK.filestoreExists = true)) ∧
      (main wOK cr0 argsDefault).events.any isSevenZipEv = true ∧
      (main wOK cr0 argsDefault).events.any isUploadEv = true :=
  C1_all_formats_same_zip wOK cr0 argsDefault (by decide)
    (Or.inl (by decide)) (by decide)

/-! ### C8 -/

/-- C8 fails as stated: in a fully successful run the name in the accounting row
is the bare timestamped filename while the upload and `head_object` key is
that filename with the `bkdaily/` channel prefix prepended — the recorded
name and the object key are different strings. -/
theorem C8_counterexample :
    (main wOK cr0 argsDefault).insertedRow =
        some { name := backup_filename "shop" t0, sizeBytes := 1024 } ∧
      Ev.s3Upload (s3_channel_pre ++ backup_filename "shop" t0) ∈
        (main wOK cr0 argsDefault).events ∧
      Ev.s3Head (s3_channel_pre ++ backup_filename "shop" t0) ∈
        (main wOK cr0 argsDefault).events ∧
      backup_filename "shop" t0 ≠
        s3_channel_pre ++ backup_filename "shop" t0 := by
  decide

/-- C8 (amended): for every successful upload the name of the inserted row equals
the object key with the fixed `bkdaily/` channel prefix removed: the
artifact was uploaded and head-checked under exactly
`s3_channel_pre ++ row.name`. -/
theorem C8_row_name_is_key_sans_prefix (w : World) (cr : Cursor) (a : Args)
    (hdb : w.dbExists = true) (hv : w.destExists = false ∨ a.force = true)
    (hpg : w.pgDumpRc = 0) (hup : w.uploadOk = true) (n : Nat)
    (hh : w.headLen = some n) :
    ∃ row, (main w cr a).insertedRow = some row ∧
      row.name = backup_filename a.dbname w.nowS3 ∧
      Ev.s3Upload (s3_channel_pre ++ row.name) ∈ (main w cr a).events ∧
      Ev.s3Head (s3_channel_pre ++ row.name) ∈ (main w cr a).events := by
  rw [main_eq_body w cr a hdb hv]
  unfold main_body _odoo_basic_backup _backup_s3
  refine ⟨{ name := backup_filename a.dbname w.nowS3, sizeBytes := n }, ?_⟩
  simp [hpg, hup, hh]

theorem C8_row_name_is_key_sans_prefix_witness :
    ∃ row, (main wOK cr0 argsDefault).insertedRow = some row ∧
      row.name = backup_filename argsDefault.dbname wOK.nowS3 ∧
      Ev.s3Upload (s3_channel_pre ++ row.name) ∈
        (main wOK cr0 argsDefault).events ∧
      Ev.s3Head (s3_channel_pre ++ row.name) ∈
        (main wOK cr0 argsDefault).events :=
  C8_row_name_is_key_sans_prefix wOK cr0 argsDefault (by decide)
    (Or.inl (by decide)) (by decide) (by decide) 1024 (by decide)

/-! ### C7 : the object key and its timestamp format -/

lemma digitChar_inj_fin : ∀ a b : Fin 10,
    Nat.digitChar a.val = Nat.digitChar b.val → a = b := by
  decide

lemma digitChar_inj_lt {a b : Nat} (ha : a < 10) (hb : b < 10)
    (h : Nat.digitChar a = Nat.digitChar b) : a = b := by
  have := digitChar_inj_fin ⟨a, ha⟩ ⟨b, hb⟩ h
  exact congrArg Fin.val this

lemma mod_ten_lt (n : Nat) : n % 10 < 10 := Nat.mod_lt _ (by norm_num)

/-- The second-precision `strftime` rendering is injective on valid
timestamps: every field occupies a fixed-width zero-padded slot. -/
lemma strftime_ts_injOn {u v : Datetime} (hu : u.Valid) (hv : v.Valid)
    (h : strftime_ts u = strftime_ts v) : u = v := by
  obtain ⟨hu1, hu2, hu3, hu4, hu5, hu6, hu7, hu8⟩ := hu
  obtain ⟨hv1, hv2, hv3, hv4, hv5, hv6, hv7, hv8⟩ := hv
  simp only [strftime_ts, fourDigits, twoDigits, List.cons_append,
    List.nil_append, String.ext_iff, List.cons.injEq, and_true,
    true_and] at h
  obtain ⟨y1, y2, y3, y4, m1, m2, d1, d2, hh1, hh2, mi1, mi2, s1, s2⟩ := h
  have ey : u.year = v.year := by
    have e1 := digitChar_inj_lt (mod_ten_lt _) (mod_ten_lt _) y1
    have e2 := digitChar_inj_lt (mod_ten_lt _) (mod_ten_lt _) y2
    have e3 := digitChar_inj_lt (mod_ten_lt _) (mod_ten_lt _) y3
    have e4 := digitChar_inj_lt (mod_ten_lt _) (mod_ten_lt _) y4
    omega
  have em : u.month = v.month := by
    have e1 := digitChar_inj_lt (mod_ten_lt _) (mod_ten_lt _) m1
    have e2 := digitChar_inj_lt (mod_ten_lt _) (mod_ten_lt _) m2
    omega
  have ed : u.day = v.day := by
    have e1 := digitChar_inj_lt (mod_ten_lt _) (mod_ten_lt _) d1
    have e2 := digitChar_inj_lt (mod_ten_lt _) (mod_ten_lt _) d2
    omega
  have eh : u.hour = v.hour := by
    have e1 := digitChar_inj_lt (mod_ten_lt _) (mod_ten_lt _) hh1
    have e2 := digitChar_inj_lt (mod_ten_lt _) (mod_ten_lt _) hh2
    omega
  have emi : u.minute = v.minute := by
    have e1 := digitChar_inj_lt (mod_ten_lt _) (mod_ten_lt _) mi1
    have e2 := digitChar_inj_lt (mod_ten_lt _) (mod_ten_lt _) mi2
    omega
  have es : u.second = v.second := by
    have e1 := digitChar_inj_lt (mod_ten_lt _) (mod_ten_lt _) s1
    have e2 := digitChar_inj_lt (mod_ten_lt _) (mod_ten_lt _) s2
    omega
  cases u
  cases v
  simp_all

/-- Distinct valid timestamps yield distinct zip filenames. -/
lemma backup_filename_injOn (db : String) {u v : Datetime} (hu : u.Valid)
    (hv : v.Valid) (h : backup_filename db u = backup_filename db v) :
    u = v := by
  apply strftime_ts_injOn hu hv
  apply String.ext
  have hd : (backup_filename db u).data = (backup_filename db v).data := by
    rw [h]
  simp only [backup_filename, String.data_append] at hd
  exact List.append_cancel_left
    (List.append_cancel_right (List.append_cancel_right hd))

/-- Distinct valid timestamps yield distinct object keys. -/
lemma s3_object_key_injOn (db : String) {u v : Datetime} (hu : u.Valid)
    (hv : v.Valid) (h : s3_object_key db u = s3_object_key db v) : u = v := by
  apply backup_filename_injOn db hu hv
  apply String.ext
  have hd := congrArg String.data h
  simp only [s3_object_key, String.data_append] at hd
  exact List.append_cancel_left hd

/-- Every branch of `_backup_s3` uploads under the timestamped object key. -/
lemma upload_key_in_s3_events (w : World) (db : String) (z : Bool) :
    Ev.s3Upload (s3_object_key db w.nowS3) ∈ (_backup_s3 w db z).events := by
  unfold _backup_s3 s3_object_key
  by_cases h : w.uploadOk = false
  · simp [h]
  · rcases hh : w.headLen with _ | n <;> simp [h, hh]

/-- C7: every run reaching the shipper uploads under the object key built
from the fixed channel prefix `bkdaily/`, the database identifier, and the
UTC timestamp rendered as `YYYY-MM-DD_HH-MM-SS` (plus the `.zip` suffix);
and for a fixed database identifier, runs whose timestamps differ at second
precision produce distinct keys that agree on everything but the timestamp
segment. -/
theorem C7_object_key_timestamped (w : World) (cr : Cursor) (a : Args)
    (v : Datetime) (hdb : w.dbExists = true)
    (hvd : w.destExists = false ∨ a.force = true) (hpg : w.pgDumpRc = 0)
    (hu : w.nowS3.Valid) (hv2 : v.Valid) (hne : w.nowS3 ≠ v) :
    Ev.s3Upload (s3_object_key a.dbname w.nowS3) ∈ (main w cr a).events ∧
      s3_object_key a.dbname w.nowS3 =
        "bkdaily/" ++ a.dbname ++ "_" ++ strftime_ts w.nowS3 ++ ".zip" ∧
      s3_object_key a.dbname v =
        "bkdaily/" ++ a.dbname ++ "_" ++ strftime_ts v ++ ".zip" ∧
      s3_object_key a.dbname w.nowS3 ≠ s3_object_key a.dbname v := by
  have hz : ("." : String) ++ "zip" = ".zip" := rfl
  refine ⟨?_, ?_, ?_, ?_⟩
  · rw [main_eq_body w cr a hdb hvd]
    unfold main_body _odoo_basic_backup
    simp only [hpg]
    simp [List.mem_append, upload_key_in_s3_events]
  · simp [s3_object_key, backup_filename, s3_channel_pre,
      String.append_assoc, hz]
  · simp [s3_object_key, backup_filename, s3_channel_pre,
      String.append_assoc, hz]
  · intro heq
    exact hne (s3_object_key_injOn a.dbname hu hv2 heq)

theorem C7_object_key_timestamped_witness :
    Ev.s3Upload (s3_object_key argsDefault.dbname wOK.nowS3) ∈
        (main wOK cr0 argsDefault).events ∧
      s3_object_key argsDefault.dbname wOK.nowS3 =
        "bkdaily/" ++ argsDefault.dbname ++ "_" ++ strftime_ts wOK.nowS3 ++
          ".zip" ∧
      s3_object_key argsDefault.dbname t1 =
        "bkdaily/" ++ argsDefault.dbname ++ "_" ++ strftime_ts t1 ++
          ".zip" ∧
      s3_object_key argsDefault.dbname wOK.nowS3 ≠
        s3_object_key argsDefault.dbname t1 :=
  C7_object_key_timestamped wOK cr0 argsDefault t1 (by decide)
    (Or.inl (by decide)) (by decide) (by decide) (by decide) (by decide)

end BackupDbS3
